import Mathlib

/-!
Shallow embedding of `2018/Python/Challenges/Day3.py` (Advent of Code 2018,
day 3): claims `#id @ x,y: wxh` are parsed by regex search, accumulated onto
a 1000x1000 fabric grid, then part one counts cells covered more than once
and part two finds the first claim whose cells all have count exactly 1.

The `Grid` container comes from `Utils` (not part of the sources); it is
modelled from the spec as a dense width x height array of counters addressed
by `(x, y)`, iteration yielding every cell value once.
-/

namespace Day3

/-- A claim rectangle `(x, y, w, h)`, as stored in the `claims` dict. -/
abbrev Rect := Nat × Nat × Nat × Nat

/-- Proposition: cell `(i, j)` lies inside rectangle `r = (x, y, w, h)`,
i.e. `x ≤ i < x + w` and `y ≤ j < y + h`. -/
def inRect (r : Rect) (i j : Nat) : Prop :=
  r.1 ≤ i ∧ i < r.1 + r.2.2.1 ∧ r.2.1 ≤ j ∧ j < r.2.1 + r.2.2.2

instance (r : Rect) (i j : Nat) : Decidable (inRect r i j) := by
  unfold inRect; exact inferInstance

/-- Boolean form of `inRect`, used for counting covering claims. -/
def covers (r : Rect) (i j : Nat) : Bool :=
  decide (inRect r i j)

/-- Number of rectangles in `rs` that contain cell `(i, j)`. -/
def coverCount (rs : List Rect) (i j : Nat) : Nat :=
  rs.countP fun r => covers r i j

/-- Modelled from the spec: the `Utils.Grid` container (not under the
sources) is a dense `width × height` array of counters addressed by
`(x, y)` via a column-major index; iterating the grid yields every cell. -/
structure Grid where
  width : Nat
  height : Nat
  cells : List Int

/-- Modelled from the spec: `Grid(w, h, v)` creates a `w × h` grid with
every cell initialized to `v`. -/
def Grid.create (w h : Nat) (v : Int) : Grid :=
  ⟨w, h, List.replicate (w * h) v⟩

/-- Modelled from the spec: read cell `(x, y)`. -/
def Grid.get (g : Grid) (x y : Nat) : Int :=
  g.cells.getD (x * g.height + y) 0

/-- Modelled from the spec: write cell `(x, y)`. -/
def Grid.set (g : Grid) (x y : Nat) (v : Int) : Grid :=
  ⟨g.width, g.height, g.cells.set (x * g.height + y) v⟩

/-- `fabric[(i, j)] += 1` from the source. -/
def Grid.inc (g : Grid) (x y : Nat) : Grid :=
  g.set x y (g.get x y + 1)

/-- The fabric tile: `Grid(width, width, 0)` with `width = 1000`. -/
def initFabric : Grid := Grid.create 1000 1000 0

/-- Well-formedness: the dense cell array has exactly `width * height`
entries. -/
def Grid.WF (g : Grid) : Prop := g.cells.length = g.width * g.height

/-- A rectangle lies inside grid `g`. -/
def rectIn (g : Grid) (r : Rect) : Prop :=
  r.1 + r.2.2.1 ≤ g.width ∧ r.2.1 + r.2.2.2 ≤ g.height

/-- The accumulation loop of the source for one claim:
`for i in range(x, x + w): for j in range(y, y + h): fabric[(i, j)] += 1`. -/
def applyClaim (g : Grid) (r : Rect) : Grid :=
  match r with
  | (x, y, w, h) =>
    (List.range' x w).foldl
      (fun g1 i => (List.range' y h).foldl (fun g2 j => g2.inc i j) g1) g

/-- The cells visited by the accumulation loop for claim `r`, in visit
order (`i` outer, `j` inner). -/
def cellsOf (r : Rect) : List (Nat × Nat) :=
  match r with
  | (x, y, w, h) =>
    (List.range' x w).flatMap fun i => (List.range' y h).map fun j => (i, j)

/-- Numeric value of a digit string, as Python `int` reads a matched
`\d+` group. -/
def digitsToNat (ds : List Char) : Nat :=
  ds.foldl (fun n c => n * 10 + (c.toNat - 48)) 0

/-- Match a literal character sequence at the head of `s`, returning the
rest. -/
def matchLit (lit s : List Char) : Option (List Char) :=
  if s.take lit.length = lit then some (s.drop lit.length) else none

/-- Match a greedy nonempty digit run `(\d+)` at the head of `s`. -/
def matchNum (s : List Char) : Option (Nat × List Char) :=
  if s.takeWhile Char.isDigit = [] then none
  else some (digitsToNat (s.takeWhile Char.isDigit), s.dropWhile Char.isDigit)

/-- Match the full pattern `#(\d+) @ (\d+),(\d+): (\d+)x(\d+)` at the head
of `s`, returning the five captured integers.  All separators are
non-digits, so the greedy digit runs need no backtracking. -/
def matchClaimAt (s : List Char) : Option (Nat × Rect) :=
  (matchLit ['#'] s).bind fun s1 =>
  (matchNum s1).bind fun p1 =>
  (matchLit [' ', '@', ' '] p1.2).bind fun s3 =>
  (matchNum s3).bind fun p2 =>
  (matchLit [','] p2.2).bind fun s5 =>
  (matchNum s5).bind fun p3 =>
  (matchLit [':', ' '] p3.2).bind fun s7 =>
  (matchNum s7).bind fun p4 =>
  (matchLit ['x'] p4.2).bind fun s9 =>
  (matchNum s9).bind fun p5 =>
  some (p1.1, p2.1, p3.1, p4.1, p5.1)

/-- `pattern.search(line)`: try the pattern at each start position, left to
right; `none` models the `AttributeError` raised by `.groups()` on a failed
search (a fatal malformed-input error). -/
def searchClaim : List Char → Option (Nat × Rect)
  | [] => none
  | c :: rest =>
    match matchClaimAt (c :: rest) with
    | some r => some r
    | none => searchClaim rest

/-- Python dict assignment `claims[req] = rect` on an insertion-ordered
association list: an existing key keeps its position but gets the new
value; a new key is appended. -/
def dictInsert (d : List (Nat × Rect)) (k : Nat) (v : Rect) : List (Nat × Rect) :=
  if d.any fun p => p.1 == k then
    d.map fun p => if p.1 == k then (k, v) else p
  else d ++ [(k, v)]

/-- Program state while reading the file: the fabric grid and the claims
dict. -/
structure ProgState where
  fabric : Grid
  claims : List (Nat × Rect)

/-- State after `fabric = Grid(width, width, 0); claims = {}`. -/
def initState : ProgState := ⟨initFabric, []⟩

/-- Processing of one input line: parse (fatal `none` on search failure),
record the claim in the dict, accumulate its rectangle on the fabric. -/
def processLine (st : ProgState) (line : List Char) : Option ProgState :=
  match searchClaim line with
  | none => none
  | some (req, r) => some ⟨applyClaim st.fabric r, dictInsert st.claims req r⟩

/-- The file-reading loop over all input lines; `none` models the abort on
the first malformed line. -/
def processAll : ProgState → List (List Char) → Option ProgState
  | st, [] => some st
  | st, l :: ls =>
    match processLine st l with
    | none => none
    | some st' => processAll st' ls

/-- Parsing of every line, in order; `none` as soon as one line fails. -/
def parseAll : List (List Char) → Option (List (Nat × Rect))
  | [] => some []
  | l :: ls =>
    match searchClaim l with
    | none => none
    | some c =>
      match parseAll ls with
      | none => none
      | some cs => some (c :: cs)

/-- The fabric after accumulating the given parsed claims, in order. -/
def fabricOf (ps : List (Nat × Rect)) : Grid :=
  ps.foldl (fun g p => applyClaim g p.2) initFabric

/-- The claims dict after inserting the given parsed claims, in order. -/
def dictOf (ps : List (Nat × Rect)) : List (Nat × Rect) :=
  ps.foldl (fun d p => dictInsert d p.1 p.2) []

/-- Part one: `sum(1 for i in fabric if i > 1)`, a single scan of the cell
array; the grid is returned unchanged (pure read). -/
def partOneRun (g : Grid) : Nat × Grid :=
  (g.cells.countP fun v => decide (1 < v), g)

/-- A single cell read, threading the grid through to make the absence of
writes in the reporting phases visible. -/
def readCell (g : Grid) (x y : Nat) : Int × Grid :=
  (g.get x y, g)

/-- The part-two inner double loop with its `break`/`else` structure:
visit the claim's cells in order and stop at the first whose count is not
1; returns whether such a cell was found. -/
def checkCells : Grid → List (Nat × Nat) → Bool × Grid
  | g, [] => (false, g)
  | g, c :: rest =>
    let r := readCell g c.1 c.2
    if r.1 != 1 then (true, r.2) else checkCells r.2 rest

/-- Whether some cell of claim `r` has a count other than 1 (the condition
under which the part-two loop rejects `r`). -/
def hasBadCell (g : Grid) (r : Rect) : Bool :=
  (checkCells g (cellsOf r)).1

/-- Part two: loop through the claims dict in order and return the first
id whose rectangle has no cell with count other than 1; the loop returns
immediately on success, without touching the remaining claims. -/
def findOverlapFree : Grid → List (Nat × Rect) → Option Nat × Grid
  | g, [] => (none, g)
  | g, c :: rest =>
    let res := checkCells g (cellsOf c.2)
    if res.1 then findOverlapFree res.2 rest else (some c.1, res.2)

/-- Boolean form of "every cell of `r` has count exactly 1". -/
def allOnes (g : Grid) (r : Rect) : Bool :=
  match r with
  | (x, y, w, h) =>
    (List.range' x w).all fun i => (List.range' y h).all fun j => g.get i j == 1

/-- Whole-program output: `none` models the abort on a malformed line;
otherwise the part-one line always, and the part-two line only when a
winning claim exists. -/
def programOutput (lines : List (List Char)) : Option (List (String × Nat)) :=
  match processAll initState lines with
  | none => none
  | some st =>
    some (("Part one count:", (partOneRun st.fabric).1) ::
      match (findOverlapFree st.fabric st.claims).1 with
      | some req => [("Part two ID:", req)]
      | none => [])

/-- The 3-claim example: `#1 @ 1,3: 4x4`, `#2 @ 3,1: 4x4`, `#3 @ 5,5: 2x2`. -/
def exampleClaims : List (Nat × Rect) :=
  [(1, (1, 3, 4, 4)), (2, (3, 1, 4, 4)), (3, (5, 5, 2, 2))]

/-- The rectangles of the 3-claim example. -/
def exampleRects : List Rect := exampleClaims.map Prod.snd

/-- The input lines of the 3-claim example. -/
def exampleLines : List (List Char) :=
  ["#1 @ 1,3: 4x4".toList, "#2 @ 3,1: 4x4".toList, "#3 @ 5,5: 2x2".toList]

/-- A rectangle lies inside the 1000 × 1000 fabric. -/
def rectInGrid (r : Rect) : Prop :=
  r.1 + r.2.2.1 ≤ 1000 ∧ r.2.1 + r.2.2.2 ≤ 1000

instance (r : Rect) : Decidable (rectInGrid r) := by
  unfold rectInGrid; exact inferInstance

/-! ### Basic list-array lemmas -/

lemma getD_set_self (l : List Int) (n : Nat) (v : Int) (h : n < l.length) :
    (l.set n v).getD n 0 = v := by
  simp [List.getD_eq_getElem?_getD, List.getElem?_set_self h]

lemma getD_set_ne (l : List Int) (n m : Nat) (v : Int) (h : n ≠ m) :
    (l.set n v).getD m 0 = l.getD m 0 := by
  simp [List.getD_eq_getElem?_getD, List.getElem?_set_ne h]

lemma getD_replicate_zero (n i : Nat) : (List.replicate n (0 : Int)).getD i 0 = 0 := by
  simp [List.getD_eq_getElem?_getD, List.getElem?_replicate]
  split <;> rfl

/-! ### Index arithmetic for the column-major encoding -/

lemma idx_lt {x y W H : Nat} (hx : x < W) (hy : y < H) : x * H + y < W * H := by
  have h1 : x * H + y < (x + 1) * H := by
    rw [Nat.succ_mul]; omega
  have h2 : (x + 1) * H ≤ W * H := Nat.mul_le_mul_right H hx
  omega

lemma idx_inj {x y i j H : Nat} (hy : y < H) (hj : j < H)
    (h : x * H + y = i * H + j) : x = i ∧ y = j := by
  rcases Nat.lt_trichotomy x i with hlt | heq | hgt
  · exfalso
    have h1 : (x + 1) * H ≤ i * H := Nat.mul_le_mul_right H hlt
    rw [Nat.succ_mul] at h1
    omega
  · subst heq
    exact ⟨rfl, by omega⟩
  · exfalso
    have h1 : (i + 1) * H ≤ x * H := Nat.mul_le_mul_right H hgt
    rw [Nat.succ_mul] at h1
    omega

/-! ### Dimension preservation -/

lemma inc_dims (g : Grid) (x y : Nat) :
    (g.inc x y).width = g.width ∧ (g.inc x y).height = g.height ∧
      (g.inc x y).cells.length = g.cells.length := by
  simp [Grid.inc, Grid.set]

lemma foldl_grid_dims {α : Type} (f : Grid → α → Grid)
    (hf : ∀ g a, (f g a).width = g.width ∧ (f g a).height = g.height ∧
      (f g a).cells.length = g.cells.length)
    (l : List α) (g : Grid) :
    (l.foldl f g).width = g.width ∧ (l.foldl f g).height = g.height ∧
      (l.foldl f g).cells.length = g.cells.length := by
  induction l generalizing g with
  | nil => exact ⟨rfl, rfl, rfl⟩
  | cons a l ih =>
    obtain ⟨h1, h2, h3⟩ := hf g a
    obtain ⟨h4, h5, h6⟩ := ih (f g a)
    exact ⟨h4.trans h1, h5.trans h2, h6.trans h3⟩

lemma applyClaim_dims (g : Grid) (r : Rect) :
    (applyClaim g r).width = g.width ∧ (applyClaim g r).height = g.height ∧
      (applyClaim g r).cells.length = g.cells.length := by
  obtain ⟨x, y, w, h⟩ := r
  exact foldl_grid_dims _
    (fun g1 i => foldl_grid_dims _ (fun g2 j => inc_dims g2 i j) _ g1) _ g

/-! ### Pointwise effect of the accumulation loops -/

lemma get_inc (g : Grid) (hwf : g.WF) {x y i j : Nat}
    (hx : x < g.width) (hy : y < g.height) (hj : j < g.height) :
    (g.inc x y).get i j = if i = x ∧ j = y then g.get x y + 1 else g.get i j := by
  have hlen : x * g.height + y < g.cells.length := by
    rw [hwf]; exact idx_lt hx hy
  by_cases hc : i = x ∧ j = y
  · obtain ⟨rfl, rfl⟩ := hc
    simp only [if_pos (And.intro rfl rfl)]
    show (g.cells.set (i * g.height + j) (g.get i j + 1)).getD (i * g.height + j) 0 = _
    exact getD_set_self _ _ _ hlen
  · rw [if_neg hc]
    show (g.cells.set (x * g.height + y) (g.get x y + 1)).getD (i * g.height + j) 0 = _
    refine getD_set_ne _ _ _ _ fun he => hc ?_
    obtain ⟨h1, h2⟩ := idx_inj hy hj he
    exact ⟨h1.symm, h2.symm⟩

lemma get_foldl_col (g : Grid) (hwf : g.WF) {a : Nat} (ha : a < g.width)
    {y h : Nat} (hyh : y + h ≤ g.height) {i j : Nat} (hj : j < g.height) :
    ((List.range' y h).foldl (fun g2 j' => g2.inc a j') g).get i j
      = g.get i j + if i = a ∧ y ≤ j ∧ j < y + h then 1 else 0 := by
  induction h generalizing y g with
  | zero =>
    rw [if_neg (by omega)]
    simp [List.range']
  | succ h ih =>
    rw [List.range'_succ, List.foldl_cons]
    have hd := inc_dims g a y
    have hwf' : (g.inc a y).WF := by unfold Grid.WF; rw [hd.1, hd.2.1, hd.2.2, hwf]
    have ha' : a < (g.inc a y).width := by rw [hd.1]; exact ha
    have hyh' : (y + 1) + h ≤ (g.inc a y).height := by rw [hd.2.1]; omega
    have hj' : j < (g.inc a y).height := by rw [hd.2.1]; exact hj
    rw [ih (g.inc a y) hwf' ha' hyh' hj']
    rw [get_inc g hwf ha (by omega) hj]
    by_cases hc : i = a ∧ j = y
    · obtain ⟨rfl, rfl⟩ := hc
      rw [if_pos ⟨rfl, rfl⟩, if_neg (by omega), if_pos ⟨rfl, by omega, by omega⟩]
      ring
    · rw [if_neg hc]
      congr 1
      split_ifs <;> omega

lemma get_applyClaim (g : Grid) (hwf : g.WF) {x y w h : Nat}
    (hxw : x + w ≤ g.width) (hyh : y + h ≤ g.height) {i j : Nat} (hj : j < g.height) :
    (applyClaim g (x, y, w, h)).get i j
      = g.get i j + if x ≤ i ∧ i < x + w ∧ y ≤ j ∧ j < y + h then 1 else 0 := by
  show ((List.range' x w).foldl _ g).get i j = _
  induction w generalizing x g with
  | zero =>
    rw [if_neg (by omega)]
    simp [List.range']
  | succ w ih =>
    rw [List.range'_succ, List.foldl_cons]
    set g1 := (List.range' y h).foldl (fun g2 j' => g2.inc x j') g with hg1
    have hd : g1.width = g.width ∧ g1.height = g.height ∧ g1.cells.length = g.cells.length :=
      foldl_grid_dims _ (fun g2 j => inc_dims g2 x j) _ g
    have hwf1 : g1.WF := by unfold Grid.WF; rw [hd.1, hd.2.1, hd.2.2, hwf]
    have hxw1 : (x + 1) + w ≤ g1.width := by rw [hd.1]; omega
    have hyh1 : y + h ≤ g1.height := by rw [hd.2.1]; exact hyh
    have hj1 : j < g1.height := by rw [hd.2.1]; exact hj
    rw [ih g1 hwf1 hxw1 hyh1 hj1]
    rw [hg1, get_foldl_col g hwf (by omega) hyh hj]
    split_ifs <;> omega

/-! ### Accumulation over a list of claims -/

lemma get_fold_claims (ps : List (Nat × Rect)) (g : Grid) (hwf : g.WF)
    (hin : ∀ p ∈ ps, rectIn g p.2) {i j : Nat} (hj : j < g.height) :
    (ps.foldl (fun g' p => applyClaim g' p.2) g).get i j
      = g.get i j + (coverCount (ps.map Prod.snd) i j : Int) := by
  induction ps generalizing g with
  | nil => simp [coverCount]
  | cons p ps ih =>
    obtain ⟨req, x, y, w, h⟩ := p
    obtain ⟨hrx, hry⟩ := hin (req, x, y, w, h) (List.mem_cons_self _ _)
    rw [List.foldl_cons]
    have hd := applyClaim_dims g (x, y, w, h)
    have hwf' : (applyClaim g (x, y, w, h)).WF := by
      unfold Grid.WF; rw [hd.1, hd.2.1, hd.2.2, hwf]
    have hin' : ∀ p ∈ ps, rectIn (applyClaim g (x, y, w, h)) p.2 := by
      intro p hp
      obtain ⟨h1, h2⟩ := hin p (List.mem_cons_of_mem _ hp)
      exact ⟨by rw [hd.1]; exact h1, by rw [hd.2.1]; exact h2⟩
    have hj' : j < (applyClaim g (x, y, w, h)).height := by rw [hd.2.1]; exact hj
    rw [ih (applyClaim g (x, y, w, h)) hwf' hin' hj']
    rw [get_applyClaim g hwf hrx hry hj]
    simp only [List.map_cons, coverCount, List.countP_cons, covers, inRect]
    push_cast [apply_ite (Nat.cast : Nat → Int)]
    simp only [decide_eq_true_eq]
    split_ifs <;> omega

lemma initFabric_wf : initFabric.WF := by
  show (List.replicate (1000 * 1000) (0 : Int)).length = 1000 * 1000
  rw [List.length_replicate]

lemma initFabric_get (i j : Nat) : initFabric.get i j = 0 :=
  getD_replicate_zero _ _

lemma fabricOf_dims (ps : List (Nat × Rect)) :
    (fabricOf ps).width = 1000 ∧ (fabricOf ps).height = 1000 ∧ (fabricOf ps).WF := by
  have h := foldl_grid_dims (fun g' p => applyClaim g' p.2)
    (fun g' p => applyClaim_dims g' p.2) ps initFabric
  refine ⟨h.1, h.2.1, ?_⟩
  unfold fabricOf Grid.WF
  rw [h.1, h.2.1, h.2.2]
  exact initFabric_wf

lemma fabricOf_get (ps : List (Nat × Rect)) (hin : ∀ p ∈ ps, rectInGrid p.2)
    {i j : Nat} (hj : j < 1000) :
    (fabricOf ps).get i j = (coverCount (ps.map Prod.snd) i j : Int) := by
  rw [show (fabricOf ps) = ps.foldl (fun g' p => applyClaim g' p.2) initFabric from rfl]
  rw [get_fold_claims ps initFabric initFabric_wf (fun p hp => hin p hp) hj]
  rw [initFabric_get]
  ring

/-! ### The reporting loops -/

lemma checkCells_snd (cells : List (Nat × Nat)) (g : Grid) :
    (checkCells g cells).2 = g := by
  induction cells generalizing g with
  | nil => rfl
  | cons c rest ih =>
    simp only [checkCells, readCell]
    split
    · rfl
    · exact ih g

lemma checkCells_fst (cells : List (Nat × Nat)) (g : Grid) :
    (checkCells g cells).1 = cells.any fun c => g.get c.1 c.2 != 1 := by
  induction cells generalizing g with
  | nil => rfl
  | cons c rest ih =>
    simp only [checkCells, readCell, List.any_cons]
    cases hb : g.get c.1 c.2 != 1 <;> simp [hb, ih]

lemma allOnes_true_iff (g : Grid) (x y w h : Nat) :
    allOnes g (x, y, w, h) = true
      ↔ ∀ i j, inRect (x, y, w, h) i j → g.get i j = 1 := by
  simp only [allOnes, List.all_eq_true, List.mem_range'_1, beq_iff_eq, inRect, and_imp]
  constructor
  · intro H i j h1 h2 h3 h4
    exact H i h1 h2 j h3 h4
  · intro H i h1 h2 j h3 h4
    exact H i j h1 h2 h3 h4

lemma mem_cellsOf {x y w h : Nat} {c : Nat × Nat} :
    c ∈ cellsOf (x, y, w, h) ↔ inRect (x, y, w, h) c.1 c.2 := by
  obtain ⟨i, j⟩ := c
  simp only [cellsOf, List.mem_flatMap, List.mem_map, List.mem_range'_1,
    Prod.mk.injEq, inRect]
  constructor
  · rintro ⟨a, ⟨ha1, ha2⟩, b, ⟨hb1, hb2⟩, rfl, rfl⟩
    exact ⟨ha1, ha2, hb1, hb2⟩
  · rintro ⟨h1, h2, h3, h4⟩
    exact ⟨i, ⟨h1, h2⟩, j, ⟨h3, h4⟩, rfl, rfl⟩

lemma hasBad_false_iff (g : Grid) (x y w h : Nat) :
    (checkCells g (cellsOf (x, y, w, h))).1 = false
      ↔ ∀ i j, inRect (x, y, w, h) i j → g.get i j = 1 := by
  rw [checkCells_fst, List.any_eq_false]
  constructor
  · intro H i j hij
    have := H (i, j) (mem_cellsOf.2 hij)
    simpa using this
  · intro H c hc
    simpa using H c.1 c.2 (mem_cellsOf.1 hc)

lemma checkCells_cellsOf (g : Grid) (r : Rect) :
    (checkCells g (cellsOf r)).1 = !(allOnes g r) := by
  obtain ⟨x, y, w, h⟩ := r
  cases hA : allOnes g (x, y, w, h)
  · simp only [Bool.not_false]
    by_contra hC
    rw [Bool.not_eq_true] at hC
    have := (allOnes_true_iff g x y w h).2 ((hasBad_false_iff g x y w h).1 hC)
    rw [hA] at this
    exact Bool.false_ne_true this
  · simp only [Bool.not_true]
    exact (hasBad_false_iff g x y w h).2 ((allOnes_true_iff g x y w h).1 hA)

lemma findOverlapFree_snd (cs : List (Nat × Rect)) (g : Grid) :
    (findOverlapFree g cs).2 = g := by
  induction cs generalizing g with
  | nil => rfl
  | cons c rest ih =>
    simp only [findOverlapFree, checkCells_snd]
    split
    · exact ih g
    · rfl

lemma findOverlapFree_cons (g : Grid) (c : Nat × Rect) (rest : List (Nat × Rect)) :
    findOverlapFree g (c :: rest)
      = if allOnes g c.2 then (some c.1, g) else findOverlapFree g rest := by
  simp only [findOverlapFree, checkCells_cellsOf, checkCells_snd]
  cases hA : allOnes g c.2 <;> simp

lemma findOverlapFree_fst (cs : List (Nat × Rect)) (g : Grid) :
    (findOverlapFree g cs).1 = (cs.find? fun c => allOnes g c.2).map Prod.fst := by
  induction cs with
  | nil => rfl
  | cons c rest ih =>
    rw [findOverlapFree_cons]
    cases hA : allOnes g c.2 <;> simp [List.find?_cons, hA, ih]

/-! ### Decomposition of the file-reading loop -/

lemma processAll_eq (lines : List (List Char)) (st : ProgState) :
    processAll st lines = (parseAll lines).map fun ps =>
      ⟨ps.foldl (fun g p => applyClaim g p.2) st.fabric,
        ps.foldl (fun d p => dictInsert d p.1 p.2) st.claims⟩ := by
  induction lines generalizing st with
  | nil => rfl
  | cons l ls ih =>
    simp only [processAll, processLine, parseAll]
    cases hs : searchClaim l with
    | none => rfl
    | some c =>
      obtain ⟨req, r⟩ := c
      dsimp only
      rw [ih]
      cases hp : parseAll ls <;> rfl

lemma processAll_init (lines : List (List Char)) :
    processAll initState lines
      = (parseAll lines).map fun ps => ⟨fabricOf ps, dictOf ps⟩ :=
  processAll_eq lines initState

/-! ### Counting cells -/

lemma countP_eq_sum_range (l : List Int) (p : Int → Bool) :
    l.countP p = ∑ idx ∈ Finset.range l.length, if p (l.getD idx 0) then 1 else 0 := by
  induction l with
  | nil => simp
  | cons a l ih =>
    rw [List.countP_cons, List.length_cons, Finset.sum_range_succ']
    simp only [List.getD_cons_succ, List.getD_cons_zero]
    rw [ih]

lemma sum_range_mul_eq (W H : Nat) (f : Nat → Nat) :
    ∑ idx ∈ Finset.range (W * H), f idx
      = ∑ x ∈ Finset.range W, ∑ y ∈ Finset.range H, f (x * H + y) := by
  rcases Nat.eq_zero_or_pos H with hH | hH
  · subst hH; simp
  · rw [← Finset.sum_product']
    refine Finset.sum_nbij' (fun idx => (idx / H, idx % H))
      (fun p => p.1 * H + p.2) ?_ ?_ ?_ ?_ ?_
    · intro idx hidx
      rw [Finset.mem_range] at hidx
      rw [Finset.mem_product, Finset.mem_range, Finset.mem_range]
      exact ⟨(Nat.div_lt_iff_lt_mul hH).2 hidx, Nat.mod_lt idx hH⟩
    · intro p hp
      rw [Finset.mem_product, Finset.mem_range, Finset.mem_range] at hp
      exact Finset.mem_range.2 (idx_lt hp.1 hp.2)
    · intro idx _
      dsimp only
      rw [Nat.mul_comm]
      exact Nat.div_add_mod idx H
    · intro p hp
      rw [Finset.mem_product, Finset.mem_range, Finset.mem_range] at hp
      obtain ⟨a, b⟩ := p
      have hd : (a * H + b) / H = a := by
        rw [Nat.mul_comm, Nat.mul_add_div hH, Nat.div_eq_of_lt hp.2, Nat.add_zero]
      have hm : (a * H + b) % H = b := by
        rw [Nat.mul_comm, Nat.mul_add_mod]
        exact Nat.mod_eq_of_lt hp.2
      dsimp only
      rw [hd, hm]
    · intro idx _
      have h : idx / H * H + idx % H = idx := by
        rw [Nat.mul_comm]
        exact Nat.div_add_mod idx H
      dsimp only
      rw [h]

lemma partOne_card (g : Grid) (hwf : g.WF) :
    (partOneRun g).1
      = ((Finset.range g.width ×ˢ Finset.range g.height).filter
          fun p => 1 < g.get p.1 p.2).card := by
  rw [Finset.card_filter, Finset.sum_product' (Finset.range g.width)
    (Finset.range g.height) (fun i j => if 1 < g.get i j then 1 else 0)]
  show g.cells.countP _ = _
  rw [countP_eq_sum_range, hwf, sum_range_mul_eq]
  refine Finset.sum_congr rfl fun x _ => Finset.sum_congr rfl fun y _ => ?_
  simp [Grid.get]

lemma partOne_sum (g : Grid) (hwf : g.WF) :
    (partOneRun g).1
      = ∑ x ∈ Finset.range g.width, ∑ y ∈ Finset.range g.height,
          if 1 < g.get x y then 1 else 0 := by
  rw [partOne_card g hwf, Finset.card_filter, Finset.sum_product' (Finset.range g.width)
    (Finset.range g.height) (fun i j => if 1 < g.get i j then 1 else 0)]

/-! ### The 3-claim example -/

lemma exampleRects_eq : exampleRects = [(1, 3, 4, 4), (3, 1, 4, 4), (5, 5, 2, 2)] := rfl

lemma exampleCover_gt_one_iff (x y : Nat) :
    1 < coverCount exampleRects x y ↔ ((x = 3 ∨ x = 4) ∧ (y = 3 ∨ y = 4)) := by
  show 1 < List.countP _ [(1, 3, 4, 4), (3, 1, 4, 4), (5, 5, 2, 2)] ↔ _
  simp only [List.countP_cons, List.countP_nil, covers, inRect, decide_eq_true_eq]
  split_ifs <;> omega

lemma exampleCover_one {i j : Nat} (hi1 : 5 ≤ i) (hi2 : i < 7) (hj1 : 5 ≤ j) (hj2 : j < 7) :
    coverCount exampleRects i j = 1 := by
  show List.countP _ [(1, 3, 4, 4), (3, 1, 4, 4), (5, 5, 2, 2)] = 1
  simp only [List.countP_cons, List.countP_nil, covers, inRect, decide_eq_true_eq]
  split_ifs <;> omega

lemma pair_subset_range : ({3, 4} : Finset Nat) ⊆ Finset.range 1000 := by
  intro a ha
  simp only [Finset.mem_insert, Finset.mem_singleton] at ha
  rcases ha with rfl | rfl <;> exact Finset.mem_range.2 (by omega)

lemma exampleInner (x : Nat) :
    (∑ y ∈ Finset.range 1000, if 1 < coverCount exampleRects x y then 1 else 0)
      = if x = 3 ∨ x = 4 then 2 else 0 := by
  by_cases hx : x = 3 ∨ x = 4
  · rw [if_pos hx]
    have hsub := pair_subset_range
    have hzero : ∀ y ∈ Finset.range 1000, y ∉ ({3, 4} : Finset Nat) →
        (if 1 < coverCount exampleRects x y then 1 else 0) = 0 := by
      intro y _ hy
      rw [if_neg]
      rw [exampleCover_gt_one_iff]
      simp only [Finset.mem_insert, Finset.mem_singleton] at hy
      omega
    rw [← Finset.sum_subset hsub hzero]
    rcases hx with rfl | rfl <;> decide
  · rw [if_neg hx]
    apply Finset.sum_eq_zero
    intro y _
    rw [if_neg]
    rw [exampleCover_gt_one_iff]
    omega

lemma exampleInGrid : ∀ p ∈ exampleClaims, rectInGrid p.2 := by decide

lemma examplePartOne : (partOneRun (fabricOf exampleClaims)).1 = 4 := by
  obtain ⟨hw, hh, hwf⟩ := fabricOf_dims exampleClaims
  rw [partOne_sum _ hwf, hw, hh]
  have hstep : ∀ x ∈ Finset.range 1000,
      (∑ y ∈ Finset.range 1000,
        if 1 < (fabricOf exampleClaims).get x y then 1 else 0)
      = if x = 3 ∨ x = 4 then 2 else 0 := by
    intro x _
    rw [← exampleInner x]
    refine Finset.sum_congr rfl fun y hy => ?_
    rw [fabricOf_get exampleClaims exampleInGrid (Finset.mem_range.1 hy)]
    rw [show (exampleClaims.map Prod.snd) = exampleRects from rfl]
    congr 1
    rw [eq_iff_iff]
    exact Nat.one_lt_cast
  rw [Finset.sum_congr rfl hstep]
  have hsub := pair_subset_range
  have hzero : ∀ x ∈ Finset.range 1000, x ∉ ({3, 4} : Finset Nat) →
      (if x = 3 ∨ x = 4 then 2 else 0) = 0 := by
    intro x _ hx
    rw [if_neg]
    simp only [Finset.mem_insert, Finset.mem_singleton] at hx
    omega
  rw [← Finset.sum_subset hsub hzero]
  decide

lemma exampleMapSnd : exampleClaims.map Prod.snd = exampleRects := rfl

lemma exampleAllOnes1 : allOnes (fabricOf exampleClaims) (1, 3, 4, 4) = false := by
  cases hA : allOnes (fabricOf exampleClaims) (1, 3, 4, 4)
  · rfl
  · exfalso
    have h33 := (allOnes_true_iff _ 1 3 4 4).1 hA 3 3 (by decide)
    rw [fabricOf_get exampleClaims exampleInGrid (by omega), exampleMapSnd] at h33
    rw [show coverCount exampleRects 3 3 = 2 from by decide] at h33
    norm_num at h33

lemma exampleAllOnes2 : allOnes (fabricOf exampleClaims) (3, 1, 4, 4) = false := by
  cases hA : allOnes (fabricOf exampleClaims) (3, 1, 4, 4)
  · rfl
  · exfalso
    have h33 := (allOnes_true_iff _ 3 1 4 4).1 hA 3 3 (by decide)
    rw [fabricOf_get exampleClaims exampleInGrid (by omega), exampleMapSnd] at h33
    rw [show coverCount exampleRects 3 3 = 2 from by decide] at h33
    norm_num at h33

lemma exampleAllOnes3 : allOnes (fabricOf exampleClaims) (5, 5, 2, 2) = true := by
  rw [allOnes_true_iff]
  intro i j hij
  obtain ⟨h1, h2, h3, h4⟩ : 5 ≤ i ∧ i < 5 + 2 ∧ 5 ≤ j ∧ j < 5 + 2 := hij
  rw [fabricOf_get exampleClaims exampleInGrid (by omega), exampleMapSnd]
  rw [exampleCover_one h1 (by omega) h3 (by omega)]
  norm_num

lemma examplePartTwo :
    (findOverlapFree (fabricOf exampleClaims) (dictOf exampleClaims)).1 = some 3 := by
  rw [show dictOf exampleClaims = exampleClaims from by decide, findOverlapFree_fst]
  show Option.map Prod.fst
    (List.find? _ [(1, (1, 3, 4, 4)), (2, (3, 1, 4, 4)), (3, (5, 5, 2, 2))]) = _
  simp only [List.find?_cons, exampleAllOnes1, exampleAllOnes2, exampleAllOnes3]
  rfl

/-! ### No-winner and abort propagation -/

lemma findOverlapFree_none (g : Grid) (cs : List (Nat × Rect))
    (h : ∀ c ∈ cs, allOnes g c.2 = false) : (findOverlapFree g cs).1 = none := by
  rw [findOverlapFree_fst]
  have hf : (cs.find? fun c => allOnes g c.2) = none :=
    List.find?_eq_none.2 fun c hc => by simp [h c hc]
  rw [hf]
  rfl

lemma processAll_none (lines : List (List Char)) (st : ProgState) (line : List Char)
    (hmem : line ∈ lines) (hbad : searchClaim line = none) :
    processAll st lines = none := by
  induction lines generalizing st with
  | nil => cases hmem
  | cons l ls ih =>
    rcases List.mem_cons.1 hmem with rfl | hmem'
    · simp [processAll, processLine, hbad]
    · simp only [processAll, processLine]
      cases hs : searchClaim l with
      | none => rfl
      | some c =>
        obtain ⟨req, r⟩ := c
        dsimp only
        exact ih _ hmem'

/-! ### Behaviour of the pattern matcher on well-formed lines -/

lemma takeWhile_digits (ds rest : List Char) (hds : ∀ c ∈ ds, c.isDigit = true)
    (hrest : ∀ c, rest.head? = some c → c.isDigit = false) :
    (ds ++ rest).takeWhile Char.isDigit = ds
      ∧ (ds ++ rest).dropWhile Char.isDigit = rest := by
  induction ds with
  | nil =>
    simp only [List.nil_append]
    cases rest with
    | nil => exact ⟨rfl, rfl⟩
    | cons r rs =>
      have hr : r.isDigit = false := hrest r rfl
      simp [List.takeWhile_cons, List.dropWhile_cons, hr]
  | cons d ds ih =>
    have hd : d.isDigit = true := hds d (List.mem_cons_self _ _)
    have ih' := ih fun c hc => hds c (List.mem_cons_of_mem _ hc)
    simp [List.takeWhile_cons, List.dropWhile_cons, hd, ih'.1, ih'.2]

lemma matchNum_append (ds rest : List Char) (hne : ds ≠ [])
    (hds : ∀ c ∈ ds, c.isDigit = true)
    (hrest : ∀ c, rest.head? = some c → c.isDigit = false) :
    matchNum (ds ++ rest) = some (digitsToNat ds, rest) := by
  obtain ⟨ht, hd⟩ := takeWhile_digits ds rest hds hrest
  unfold matchNum
  rw [ht, hd, if_neg hne]

lemma matchLit_append (lit rest : List Char) : matchLit lit (lit ++ rest) = some rest := by
  unfold matchLit
  rw [List.take_left, List.drop_left, if_pos rfl]

lemma head_nondigit {c0 : Char} {t rest : List Char} (h : rest = c0 :: t)
    (hc : c0.isDigit = false) : ∀ c, rest.head? = some c → c.isDigit = false := by
  subst h
  intro c hc'
  rw [List.head?_cons] at hc'
  cases hc'
  exact hc

lemma searchClaim_canonical (d1 d2 d3 d4 d5 rest : List Char)
    (h1 : d1 ≠ []) (h2 : d2 ≠ []) (h3 : d3 ≠ []) (h4 : d4 ≠ []) (h5 : d5 ≠ [])
    (hd1 : ∀ c ∈ d1, c.isDigit = true) (hd2 : ∀ c ∈ d2, c.isDigit = true)
    (hd3 : ∀ c ∈ d3, c.isDigit = true) (hd4 : ∀ c ∈ d4, c.isDigit = true)
    (hd5 : ∀ c ∈ d5, c.isDigit = true)
    (hrest : ∀ c, rest.head? = some c → c.isDigit = false) :
    searchClaim ('#' :: (d1 ++ ([' ', '@', ' '] ++ (d2 ++ ([','] ++ (d3 ++ ([':', ' ']
        ++ (d4 ++ (['x'] ++ (d5 ++ rest))))))))))
      = some (digitsToNat d1, digitsToNat d2, digitsToNat d3,
          digitsToNat d4, digitsToNat d5) := by
  have l0 : matchLit ['#'] ('#' :: (d1 ++ ([' ', '@', ' '] ++ (d2 ++ ([','] ++ (d3
      ++ ([':', ' '] ++ (d4 ++ (['x'] ++ (d5 ++ rest))))))))))
      = some (d1 ++ ([' ', '@', ' '] ++ (d2 ++ ([','] ++ (d3 ++ ([':', ' ']
        ++ (d4 ++ (['x'] ++ (d5 ++ rest))))))))) :=
    matchLit_append ['#'] _
  have n1 : matchNum (d1 ++ ([' ', '@', ' '] ++ (d2 ++ ([','] ++ (d3 ++ ([':', ' ']
      ++ (d4 ++ (['x'] ++ (d5 ++ rest)))))))))
      = some (digitsToNat d1, [' ', '@', ' '] ++ (d2 ++ ([','] ++ (d3 ++ ([':', ' ']
        ++ (d4 ++ (['x'] ++ (d5 ++ rest)))))))) :=
    matchNum_append _ _ h1 hd1 (head_nondigit rfl (by decide))
  have l1 : matchLit [' ', '@', ' '] ([' ', '@', ' '] ++ (d2 ++ ([','] ++ (d3
      ++ ([':', ' '] ++ (d4 ++ (['x'] ++ (d5 ++ rest))))))))
      = some (d2 ++ ([','] ++ (d3 ++ ([':', ' '] ++ (d4 ++ (['x'] ++ (d5 ++ rest))))))) :=
    matchLit_append _ _
  have n2 : matchNum (d2 ++ ([','] ++ (d3 ++ ([':', ' '] ++ (d4 ++ (['x'] ++ (d5
      ++ rest)))))))
      = some (digitsToNat d2, [','] ++ (d3 ++ ([':', ' '] ++ (d4 ++ (['x']
        ++ (d5 ++ rest)))))) :=
    matchNum_append _ _ h2 hd2 (head_nondigit rfl (by decide))
  have l2 : matchLit [','] ([','] ++ (d3 ++ ([':', ' '] ++ (d4 ++ (['x'] ++ (d5
      ++ rest))))))
      = some (d3 ++ ([':', ' '] ++ (d4 ++ (['x'] ++ (d5 ++ rest))))) :=
    matchLit_append _ _
  have n3 : matchNum (d3 ++ ([':', ' '] ++ (d4 ++ (['x'] ++ (d5 ++ rest)))))
      = some (digitsToNat d3, [':', ' '] ++ (d4 ++ (['x'] ++ (d5 ++ rest)))) :=
    matchNum_append _ _ h3 hd3 (head_nondigit rfl (by decide))
  have l3 : matchLit [':', ' '] ([':', ' '] ++ (d4 ++ (['x'] ++ (d5 ++ rest))))
      = some (d4 ++ (['x'] ++ (d5 ++ rest))) :=
    matchLit_append _ _
  have n4 : matchNum (d4 ++ (['x'] ++ (d5 ++ rest)))
      = some (digitsToNat d4, ['x'] ++ (d5 ++ rest)) :=
    matchNum_append _ _ h4 hd4 (head_nondigit rfl (by decide))
  have l4 : matchLit ['x'] (['x'] ++ (d5 ++ rest)) = some (d5 ++ rest) :=
    matchLit_append _ _
  have n5 : matchNum (d5 ++ rest) = some (digitsToNat d5, rest) :=
    matchNum_append _ _ h5 hd5 hrest
  have hm : matchClaimAt ('#' :: (d1 ++ ([' ', '@', ' '] ++ (d2 ++ ([','] ++ (d3
      ++ ([':', ' '] ++ (d4 ++ (['x'] ++ (d5 ++ rest))))))))))
      = some (digitsToNat d1, digitsToNat d2, digitsToNat d3,
          digitsToNat d4, digitsToNat d5) := by
    simp only [matchClaimAt, l0, Option.some_bind, n1, l1, n2, l2, n3, l3, n4, l4, n5]
  simp only [searchClaim, hm]

/-! ### Output on the 3-claim example -/

lemma exampleParse : parseAll exampleLines = some exampleClaims := by decide

lemma exampleOutput :
    programOutput exampleLines
      = some [("Part one count:", (partOneRun (fabricOf exampleClaims)).1),
          ("Part two ID:", 3)] := by
  unfold programOutput
  rw [processAll_init, exampleParse]
  simp only [Option.map_some']
  rw [examplePartTwo]

/-! ### The claims -/

/-- C1: iterating claims in their original parse order, a claim is the
answer iff every cell of its rectangle has grid value exactly 1 after
accumulation (the part-two loop equals `find?` over that test, and the
test is equivalent to the all-cells-one property); the first such claim's
id is returned immediately, without checking the remaining claims; and on
the 3-claim example the printed id is 3. -/
theorem partTwo_first_all_ones :
    (∀ (g : Grid) (cs : List (Nat × Rect)),
      (findOverlapFree g cs).1 = (cs.find? fun c => allOnes g c.2).map Prod.fst)
    ∧ (∀ (g : Grid) (x y w h : Nat),
        allOnes g (x, y, w, h) = true
          ↔ ∀ i j, inRect (x, y, w, h) i j → g.get i j = 1)
    ∧ (∀ (g : Grid) (c : Nat × Rect) (rest : List (Nat × Rect)),
        (∀ i j, inRect c.2 i j → g.get i j = 1) →
        findOverlapFree g (c :: rest) = (some c.1, g))
    ∧ programOutput exampleLines
        = some [("Part one count:", (partOneRun (fabricOf exampleClaims)).1),
            ("Part two ID:", 3)] := by
  refine ⟨fun g cs => findOverlapFree_fst cs g,
    fun g x y w h => allOnes_true_iff g x y w h, ?_, exampleOutput⟩
  intro g c rest hwin
  obtain ⟨req, x, y, w, h⟩ := c
  rw [findOverlapFree_cons]
  rw [if_pos ((allOnes_true_iff g x y w h).2 hwin)]

theorem partTwo_first_all_ones_witness :
    findOverlapFree (applyClaim (Grid.create 1 1 0) (0, 0, 1, 1)) [(7, (0, 0, 1, 1))]
      = (some 7, applyClaim (Grid.create 1 1 0) (0, 0, 1, 1)) :=
  partTwo_first_all_ones.2.2.1 _ (7, (0, 0, 1, 1)) []
    (fun i j hij => by
      obtain ⟨p1, p2, p3, p4⟩ : 0 ≤ i ∧ i < 0 + 1 ∧ 0 ≤ j ∧ j < 0 + 1 := hij
      have hi0 : i = 0 := by omega
      have hj0 : j = 0 := by omega
      subst hi0
      subst hj0
      decide)

/-- C2: for an input whose claims have unique ids and rectangles inside the
1000x1000 grid, after accumulation every cell value is non-negative and
equals the number of claims whose rectangle contains the cell; uncovered
cells hold 0. -/
theorem accumulation_counts_claims (lines : List (List Char)) (ps : List (Nat × Rect))
    (hp : parseAll lines = some ps)
    (huniq : (ps.map Prod.fst).Nodup)
    (hin : ∀ p ∈ ps, rectInGrid p.2)
    (i j : Nat) (hi : i < 1000) (hj : j < 1000) :
    ∃ st, processAll initState lines = some st
      ∧ st.fabric.get i j = (coverCount (ps.map Prod.snd) i j : Int)
      ∧ 0 ≤ st.fabric.get i j
      ∧ ((∀ p ∈ ps, ¬ inRect p.2 i j) → st.fabric.get i j = 0) := by
  refine ⟨⟨fabricOf ps, dictOf ps⟩, ?_, ?_, ?_, ?_⟩
  · rw [processAll_init, hp]
    rfl
  · exact fabricOf_get ps hin hj
  · show 0 ≤ (fabricOf ps).get i j
    rw [fabricOf_get ps hin hj]
    exact Int.natCast_nonneg _
  · intro hnone
    show (fabricOf ps).get i j = 0
    rw [fabricOf_get ps hin hj]
    have hz : coverCount (ps.map Prod.snd) i j = 0 := by
      apply List.countP_eq_zero.2
      intro r hr
      obtain ⟨p, hp', rfl⟩ := List.mem_map.1 hr
      simp only [covers, decide_eq_true_eq]
      exact hnone p hp'
    rw [hz]
    rfl

theorem accumulation_counts_claims_witness :
    ∃ st, processAll initState ["#1 @ 0,0: 2x1".toList] = some st
      ∧ st.fabric.get 0 0
          = (coverCount ([((1 : Nat), ((0, 0, 2, 1) : Rect))].map Prod.snd) 0 0 : Int)
      ∧ 0 ≤ st.fabric.get 0 0
      ∧ ((∀ p ∈ [((1 : Nat), ((0, 0, 2, 1) : Rect))], ¬ inRect p.2 0 0) →
          st.fabric.get 0 0 = 0) :=
  accumulation_counts_claims _ [(1, (0, 0, 2, 1))] (by decide) (by decide) (by decide)
    0 0 (by omega) (by omega)

/-- C3: the part-one count equals the number of grid cells whose
post-accumulation value is strictly greater than 1, computed by one scan of
the cell array; on the 3-claim example the count is 4. -/
theorem partOne_counts_overlaps :
    (∀ g : Grid, g.WF →
      (partOneRun g).1
        = ((Finset.range g.width ×ˢ Finset.range g.height).filter
            fun p => 1 < g.get p.1 p.2).card)
    ∧ (partOneRun (fabricOf exampleClaims)).1 = 4 :=
  ⟨fun g hwf => partOne_card g hwf, examplePartOne⟩

theorem partOne_counts_overlaps_witness :
    (partOneRun (Grid.create 1 1 0)).1
      = ((Finset.range (Grid.create 1 1 0).width
          ×ˢ Finset.range (Grid.create 1 1 0).height).filter
            fun p => 1 < (Grid.create 1 1 0).get p.1 p.2).card :=
  partOne_counts_overlaps.1 (Grid.create 1 1 0) (by unfold Grid.WF; decide)

/-- C4: an input line on which the pattern search fails makes the whole run
abort: the reading loop returns the fatal result and the program produces
no output at all, with no recovery and no skipping of the line. -/
theorem malformed_line_aborts (lines : List (List Char)) (line : List Char)
    (hmem : line ∈ lines) (hbad : searchClaim line = none) :
    processAll initState lines = none ∧ programOutput lines = none := by
  have h := processAll_none lines initState line hmem hbad
  refine ⟨h, ?_⟩
  unfold programOutput
  rw [h]

theorem malformed_line_aborts_witness :
    processAll initState ["#1 @ 1,3: 4x4".toList, "#2 @ 3,1".toList] = none
      ∧ programOutput ["#1 @ 1,3: 4x4".toList, "#2 @ 3,1".toList] = none :=
  malformed_line_aborts _ ("#2 @ 3,1".toList) (by decide) (by decide)

/-- C5: on a line matching `#<id> @ <x>,<y>: <w>x<h>` (nonempty digit runs,
whitespace exactly as shown, any non-digit-leading suffix), the parser
returns the five-tuple (id, x, y, w, h) whose components are the numeric
values of the corresponding decimal fields, the id being the value
following `#`. -/
theorem parser_extracts_fields (d1 d2 d3 d4 d5 rest : List Char)
    (h1 : d1 ≠ []) (h2 : d2 ≠ []) (h3 : d3 ≠ []) (h4 : d4 ≠ []) (h5 : d5 ≠ [])
    (hd1 : ∀ c ∈ d1, c.isDigit = true) (hd2 : ∀ c ∈ d2, c.isDigit = true)
    (hd3 : ∀ c ∈ d3, c.isDigit = true) (hd4 : ∀ c ∈ d4, c.isDigit = true)
    (hd5 : ∀ c ∈ d5, c.isDigit = true)
    (hrest : ∀ c, rest.head? = some c → c.isDigit = false) :
    searchClaim ('#' :: (d1 ++ ([' ', '@', ' '] ++ (d2 ++ ([','] ++ (d3 ++ ([':', ' ']
        ++ (d4 ++ (['x'] ++ (d5 ++ rest))))))))))
      = some (digitsToNat d1, digitsToNat d2, digitsToNat d3,
          digitsToNat d4, digitsToNat d5) :=
  searchClaim_canonical d1 d2 d3 d4 d5 rest h1 h2 h3 h4 h5 hd1 hd2 hd3 hd4 hd5 hrest

theorem parser_extracts_fields_witness :
    searchClaim ('#' :: (['1', '2'] ++ ([' ', '@', ' '] ++ (['3'] ++ ([','] ++ (['4']
        ++ ([':', ' '] ++ (['5'] ++ (['x'] ++ (['6'] ++ ['\n']))))))))))
      = some (digitsToNat ['1', '2'], digitsToNat ['3'], digitsToNat ['4'],
          digitsToNat ['5'], digitsToNat ['6']) :=
  parser_extracts_fields ['1', '2'] ['3'] ['4'] ['5'] ['6'] ['\n']
    (by decide) (by decide) (by decide) (by decide) (by decide)
    (by decide) (by decide) (by decide) (by decide) (by decide)
    (head_nondigit rfl (by decide))

/-- C6: when no claim has all its cells at value exactly 1, part two
produces no second output line and this is not an error: the program still
emits the part-one line and terminates normally. -/
theorem no_winner_no_second_line (lines : List (List Char)) (ps : List (Nat × Rect))
    (hp : parseAll lines = some ps)
    (hno : ∀ c ∈ dictOf ps, allOnes (fabricOf ps) c.2 = false) :
    programOutput lines
      = some [("Part one count:", (partOneRun (fabricOf ps)).1)] := by
  unfold programOutput
  rw [processAll_init, hp]
  simp only [Option.map_some']
  rw [findOverlapFree_none (fabricOf ps) (dictOf ps) hno]

theorem no_winner_no_second_line_witness :
    programOutput ["#1 @ 0,0: 2x2".toList, "#2 @ 0,0: 2x2".toList]
      = some [("Part one count:",
          (partOneRun (fabricOf [(1, (0, 0, 2, 2)), (2, (0, 0, 2, 2))])).1)] :=
  no_winner_no_second_line _ [(1, (0, 0, 2, 2)), (2, (0, 0, 2, 2))]
    (by decide) (by decide)

/-- C7: running the accumulation phase a second time over the same claim
set, without resetting the grid, leaves every cell with exactly twice the
count of a single run (accumulation is additive, not idempotent). -/
theorem accumulation_additive (ps : List (Nat × Rect))
    (hin : ∀ p ∈ ps, rectInGrid p.2) (i j : Nat) (hi : i < 1000) (hj : j < 1000) :
    (ps.foldl (fun g p => applyClaim g p.2) (fabricOf ps)).get i j
      = 2 * (fabricOf ps).get i j := by
  obtain ⟨hw, hh, hwf⟩ := fabricOf_dims ps
  have hin' : ∀ p ∈ ps, rectIn (fabricOf ps) p.2 := fun p hp =>
    ⟨by rw [hw]; exact (hin p hp).1, by rw [hh]; exact (hin p hp).2⟩
  rw [get_fold_claims ps (fabricOf ps) hwf hin' (by rw [hh]; exact hj)]
  rw [fabricOf_get ps hin hj]
  ring

theorem accumulation_additive_witness :
    ([((1 : Nat), ((0, 0, 1, 1) : Rect))].foldl (fun g p => applyClaim g p.2)
        (fabricOf [(1, (0, 0, 1, 1))])).get 0 0
      = 2 * (fabricOf [(1, (0, 0, 1, 1))]).get 0 0 :=
  accumulation_additive [(1, (0, 0, 1, 1))] (by decide) 0 0 (by omega) (by omega)

/-- C8: a claim of width 1 and height 1 increments exactly one grid cell,
and every cell the accumulation loop visits for a claim flush against the
grid edge (`x + w = 1000`) lies inside the grid bounds (no out-of-bounds
access). -/
theorem boundary_claims_safe (g : Grid) (x y i j : Nat)
    (hW : g.width = 1000) (hH : g.height = 1000) (hwf : g.WF)
    (hx : x < 1000) (hy : y < 1000) (hi : i < 1000) (hj : j < 1000) :
    ((applyClaim g (x, y, 1, 1)).get i j
        = if i = x ∧ j = y then g.get i j + 1 else g.get i j)
    ∧ (∀ x' y' w h : Nat, x' + w = 1000 → y' + h ≤ 1000 →
        ∀ p ∈ cellsOf (x', y', w, h), p.1 < 1000 ∧ p.2 < 1000) := by
  constructor
  · have hx' : x + 1 ≤ g.width := by rw [hW]; omega
    have hy' : y + 1 ≤ g.height := by rw [hH]; omega
    have hj' : j < g.height := by rw [hH]; exact hj
    rw [get_applyClaim g hwf hx' hy' hj']
    split_ifs <;> omega
  · intro x' y' w h hxw hyh p hp
    obtain ⟨q1, q2, q3, q4⟩ : x' ≤ p.1 ∧ p.1 < x' + w ∧ y' ≤ p.2 ∧ p.2 < y' + h :=
      mem_cellsOf.1 hp
    exact ⟨by omega, by omega⟩

theorem boundary_claims_safe_witness :
    ((applyClaim initFabric (0, 0, 1, 1)).get 0 0
        = if (0 : Nat) = 0 ∧ (0 : Nat) = 0 then initFabric.get 0 0 + 1
          else initFabric.get 0 0)
    ∧ (∀ x' y' w h : Nat, x' + w = 1000 → y' + h ≤ 1000 →
        ∀ p ∈ cellsOf (x', y', w, h), p.1 < 1000 ∧ p.2 < 1000) :=
  boundary_claims_safe initFabric 0 0 0 0 rfl rfl initFabric_wf
    (by omega) (by omega) (by omega) (by omega)

/-- C9: the reporting phases only read the grid: the part-one scan and the
part-two check both return the grid unchanged; only the accumulation
phase's cell increments mutate it. -/
theorem reporting_pure_reads (g : Grid) (cs : List (Nat × Rect)) :
    (partOneRun g).2 = g ∧ (findOverlapFree g cs).2 = g :=
  ⟨rfl, findOverlapFree_snd cs g⟩

theorem reporting_pure_reads_witness :
    (partOneRun initFabric).2 = initFabric
      ∧ (findOverlapFree initFabric [(1, (0, 0, 1, 1))]).2 = initFabric :=
  reporting_pure_reads initFabric [(1, (0, 0, 1, 1))]

/-- C10: two input lines with the same id leave the claims dict with only
the later line's rectangle under that id (so part two checks only that
rectangle), while the fabric still accumulates both lines' rectangles. -/
theorem duplicate_ids_last_rect (lines : List (List Char)) (req : Nat) (r1 r2 : Rect)
    (hp : parseAll lines = some [(req, r1), (req, r2)])
    (h1 : rectInGrid r1) (h2 : rectInGrid r2)
    (i j : Nat) (hi : i < 1000) (hj : j < 1000) :
    ∃ st, processAll initState lines = some st
      ∧ st.claims = [(req, r2)]
      ∧ st.fabric.get i j
          = ((if inRect r1 i j then 1 else 0)
              + (if inRect r2 i j then 1 else 0) : Int) := by
  refine ⟨⟨fabricOf [(req, r1), (req, r2)], dictOf [(req, r1), (req, r2)]⟩, ?_, ?_, ?_⟩
  · rw [processAll_init, hp]
    rfl
  · show dictOf [(req, r1), (req, r2)] = [(req, r2)]
    simp [dictOf, dictInsert]
  · show (fabricOf [(req, r1), (req, r2)]).get i j = _
    have hin : ∀ p ∈ [(req, r1), (req, r2)], rectInGrid p.2 := by
      intro p hp'
      rcases List.mem_cons.1 hp' with rfl | hp''
      · exact h1
      · rcases List.mem_cons.1 hp'' with rfl | hp'''
        · exact h2
        · cases hp'''
    rw [fabricOf_get _ hin hj]
    have hcc : coverCount ([(req, r1), (req, r2)].map Prod.snd) i j
        = (if inRect r1 i j then 1 else 0) + (if inRect r2 i j then 1 else 0) := by
      simp only [List.map_cons, List.map_nil, coverCount, List.countP_cons,
        List.countP_nil, covers, decide_eq_true_eq]
      split_ifs <;> omega
    rw [hcc]
    push_cast [apply_ite (Nat.cast : Nat → Int)]
    rfl

theorem duplicate_ids_last_rect_witness :
    ∃ st, processAll initState ["#5 @ 0,0: 1x1".toList, "#5 @ 2,2: 1x1".toList] = some st
      ∧ st.claims = [(5, ((2, 2, 1, 1) : Rect))]
      ∧ st.fabric.get 0 0
          = ((if inRect (0, 0, 1, 1) 0 0 then 1 else 0)
              + (if inRect (2, 2, 1, 1) 0 0 then 1 else 0) : Int) :=
  duplicate_ids_last_rect _ 5 (0, 0, 1, 1) (2, 2, 1, 1) (by decide) (by decide)
    (by decide) 0 0 (by omega) (by omega)

end Day3
